import Mathlib

/-!
Verification of the `model_training` Airflow DAG (src/dags/model_training.py).

The development embeds, as executable Lean definitions:
  * each task body as a function over the run parameters and its opaque
    external operations (the imports from `util`, the sklearn calls, and the
    pandas operations), returning `Except PyErr _` so that Python exceptions
    are explicit;
  * the wiring of the DAG (data-input references, branch edges, and the
    resulting upstream relation), read off lines 309-335 of the source;
  * the run-level execution semantics (topological walk, skip propagation on
    failure, branch-based skipping), modelled from the specification's
    Executor contract, since the engine that interprets the DAG is the
    external Airflow scheduler and is not part of the repository's source;
  * a rational-arithmetic model of the external sklearn metric functions
    `r2_score` and `mean_squared_error` and of the numpy max/min reductions,
    used by the `evaluate` task.
-/

namespace ModelTraining

/-- A Python exception value: either a `KeyError` from a dictionary lookup or
an exception raised by an opaque external operation, tagged with a message. -/
inductive PyErr
  | keyError (key : String)
  | extFailure (msg : String)
  deriving DecidableEq, Repr

/-- Models the uniform wrapper of every task body in the source:
`try: ... except Exception as e: print(...); raise e`.  Logging is ignored;
the caught exception is re-raised unchanged. -/
def tryRethrow {α : Type} (body : Except PyErr α) : Except PyErr α :=
  match body with
  | Except.ok v => Except.ok v
  | Except.error e => Except.error e

instance {ε α : Type} [DecidableEq ε] [DecidableEq α] : DecidableEq (Except ε α) :=
  fun x y =>
    match x, y with
    | Except.ok a, Except.ok b =>
        if h : a = b then isTrue (by rw [h])
        else isFalse fun hc => h (Except.ok.inj hc)
    | Except.ok _, Except.error _ => isFalse fun hc => Except.noConfusion hc
    | Except.error _, Except.ok _ => isFalse fun hc => Except.noConfusion hc
    | Except.error e, Except.error f =>
        if h : e = f then isTrue (by rw [h])
        else isFalse fun hc => h (Except.error.inj hc)

/-- Models a Python dictionary read `d[k]`: returns the stored value, raising
`KeyError` when the key is absent. -/
def pyGet {α : Type} (d : List (String × α)) (k : String) : Except PyErr α :=
  match d.lookup k with
  | some v => Except.ok v
  | none => Except.error (PyErr.keyError k)

/-- The run parameters supplied through `get_current_context()['params']`.
All five keys are declared on the DAG (lines 22-37) with default values, so
reads of these keys within task bodies always succeed. -/
structure Params where
  model_id : String
  date : String
  lot_id : String
  features_name : List String
  targets_name : List String

/-- A value of the DAG-level `params` dictionary: either a string or a list
of column-name strings. -/
inductive ParamVal
  | str (s : String)
  | strList (l : List String)
  deriving DecidableEq, Repr

/-- True exactly on string-valued parameters. -/
def ParamVal.isStr : ParamVal → Bool
  | ParamVal.str _ => true
  | ParamVal.strList _ => false

/-- True exactly on list-of-column-names parameters. -/
def ParamVal.isStrList : ParamVal → Bool
  | ParamVal.str _ => false
  | ParamVal.strList _ => true

/-- The `params` dictionary declared on the `@dag` decorator, lines 22-37 of
the source, in declaration order. -/
def dagParams : List (String × ParamVal) :=
  [("model_id", ParamVal.str "multi_y_regressor"),
   ("date", ParamVal.str "2024-01-01"),
   ("lot_id", ParamVal.str "ATWLOT-010124-0852-553-001"),
   ("features_name", ParamVal.strList
      ["equipment_id", "lf_id", "proc_datetime", "heat_pre"]),
   ("targets_name", ParamVal.strList
      ["al_squeeze_out_x", "al_squeeze_out_y", "outer_ball_size_x",
       "outer_ball_size_y", "ball_thickness", "loop_height",
       "outer_ball_shape", "inner_ball_shape"])]

/-- The default run parameters, the same data as `dagParams` in record form. -/
def defaultParams : Params :=
  { model_id := "multi_y_regressor"
    date := "2024-01-01"
    lot_id := "ATWLOT-010124-0852-553-001"
    features_name := ["equipment_id", "lf_id", "proc_datetime", "heat_pre"]
    targets_name := ["al_squeeze_out_x", "al_squeeze_out_y", "outer_ball_size_x",
      "outer_ball_size_y", "ball_thickness", "loop_height",
      "outer_ball_shape", "inner_ball_shape"] }

/-- The ten tasks declared inside `model_training` (lines 42-307). -/
inductive TName
  | data_collect
  | data_preprocess
  | train
  | save
  | predict
  | evaluate
  | collect_metric
  | send_result
  | check_metric
  | failure
  deriving DecidableEq, Repr

/-- Task kinds: one ordinary `@task` decorator or the `@task.branch`
decorator. -/
inductive TKind
  | ordinary
  | branch
  deriving DecidableEq, Repr

/-- The decorator used for each task: `check_metric` is declared with
`@task.branch` (line 277), every other task with plain `@task`. -/
def kindOf : TName → TKind
  | TName.data_collect => TKind.ordinary
  | TName.data_preprocess => TKind.ordinary
  | TName.train => TKind.ordinary
  | TName.save => TKind.ordinary
  | TName.predict => TKind.ordinary
  | TName.evaluate => TKind.ordinary
  | TName.collect_metric => TKind.ordinary
  | TName.send_result => TKind.ordinary
  | TName.check_metric => TKind.branch
  | TName.failure => TKind.ordinary

/-- The Airflow task id of each task: the decorated function's name, except
for `check_metric` which overrides it with `task_id="branching"`
(line 277). -/
def taskName : TName → String
  | TName.data_collect => "data_collect"
  | TName.data_preprocess => "data_preprocess"
  | TName.train => "train"
  | TName.save => "save"
  | TName.predict => "predict"
  | TName.evaluate => "evaluate"
  | TName.collect_metric => "collect_metric"
  | TName.send_result => "send_result"
  | TName.check_metric => "branching"
  | TName.failure => "failure"

/-- The ten task declarations in source order (decorator positions,
lines 42-307). -/
def declaredTasks : List TName :=
  [TName.data_collect, TName.data_preprocess, TName.train, TName.save,
   TName.predict, TName.evaluate, TName.collect_metric, TName.send_result,
   TName.check_metric, TName.failure]

/-- A data-input reference of one task: a producing task together with the
named output field consumed from it (`none` for a single-output task whose
whole return value is consumed). -/
inductive InRef
  | fromTask (producer : TName) (field : Option String)
  deriving DecidableEq, Repr

/-- The data-input references of each task, read off the call expressions in
lines 309-331 of the source. -/
def inputRefs : TName → List InRef
  | TName.data_collect => []
  | TName.data_preprocess => [InRef.fromTask TName.data_collect none]
  | TName.train =>
      [InRef.fromTask TName.data_preprocess (some "train_feature"),
       InRef.fromTask TName.data_preprocess (some "train_target")]
  | TName.save => [InRef.fromTask TName.train (some "model")]
  | TName.predict =>
      [InRef.fromTask TName.train (some "model"),
       InRef.fromTask TName.data_preprocess (some "test_feature")]
  | TName.evaluate =>
      [InRef.fromTask TName.data_preprocess (some "test_target"),
       InRef.fromTask TName.predict none]
  | TName.collect_metric =>
      [InRef.fromTask TName.evaluate none,
       InRef.fromTask TName.train (some "model_parameter")]
  | TName.send_result => [InRef.fromTask TName.evaluate none]
  | TName.check_metric => [InRef.fromTask TName.evaluate none]
  | TName.failure => []

/-- The named output fields of `producer` that `consumer` reads, per the
data-input references. -/
def consumedFields (consumer producer : TName) : List String :=
  (inputRefs consumer).filterMap fun r =>
    match r with
    | InRef.fromTask q f => if q = producer then f else none

/-- The upstream tasks of each task: the producers of its data inputs
together with the explicit branch edges `branch_decision >> ...` of
lines 334-335. -/
def upstream : TName → List TName
  | TName.data_collect => []
  | TName.data_preprocess => [TName.data_collect]
  | TName.train => [TName.data_preprocess]
  | TName.save => [TName.train, TName.check_metric]
  | TName.predict => [TName.train, TName.data_preprocess]
  | TName.evaluate => [TName.data_preprocess, TName.predict]
  | TName.collect_metric => [TName.evaluate, TName.train, TName.check_metric]
  | TName.send_result => [TName.evaluate, TName.check_metric]
  | TName.check_metric => [TName.evaluate]
  | TName.failure => [TName.check_metric]

/-- The direct downstream tasks of the branch task, lines 334-335. -/
def branchDownstream (t : TName) : Bool :=
  decide (t ∈ [TName.save, TName.collect_metric, TName.send_result, TName.failure])

/-- The topological execution order of the DAG: Kahn's algorithm over the
upstream relation with ties broken by the order in which the tasks are
instantiated in lines 309-332. -/
def order : List TName :=
  [TName.data_collect, TName.data_preprocess, TName.train, TName.predict,
   TName.evaluate, TName.check_metric, TName.save, TName.collect_metric,
   TName.send_result, TName.failure]

/-- Outcome of one task in one run. -/
inductive TStatus
  | completed
  | skipped
  | failed
  deriving DecidableEq, Repr

/-- The run-level behaviour of the task bodies, abstracted to what the
executor semantics observes: whether each body raises when invoked, and the
list of task ids kept active by the branch task when it completes. -/
structure RunEnv where
  fails : TName → Bool
  choice : List String

/-- Record update: set the status of one task. -/
def setStatus (r : TName → Option TStatus) (t : TName) (s : TStatus) :
    TName → Option TStatus :=
  fun u => if u = t then some s else r u

/-- Modelled from the spec: one step of the Executor contract.  A task is
`Skipped` when some upstream task is not `Completed` (skip propagation over
both failures and skips), or when it is directly downstream of the branch
task and its task id is not in the branch's returned set; otherwise it runs,
and is `Failed` or `Completed` according to its body. -/
def statusOf (env : RunEnv) (r : TName → Option TStatus) (t : TName) : TStatus :=
  if (upstream t).any (fun u => decide (r u ≠ some TStatus.completed)) then
    TStatus.skipped
  else if branchDownstream t && !(decide (taskName t ∈ env.choice)) then
    TStatus.skipped
  else if env.fails t then TStatus.failed
  else TStatus.completed

/-- Modelled from the spec: the Executor's walk over the topological order,
recording each task's status exactly once. -/
def execTasks (env : RunEnv) : List TName → (TName → Option TStatus) →
    (TName → Option TStatus)
  | [], r => r
  | t :: ts, r => execTasks env ts (setStatus r t (statusOf env r t))

/-- Modelled from the spec: the run record of one complete run of the DAG
under behaviour `env`, as a total map from task to status. -/
def runDag (env : RunEnv) (t : TName) : TStatus :=
  (execTasks env order (fun _ => none) t).getD TStatus.skipped

/-- The value returned by a branch task body: Airflow accepts either a list
of task ids or a single task id string. -/
inductive BranchValue
  | taskList (ids : List String)
  | taskId (id : String)
  deriving DecidableEq, Repr

/-- Airflow normalizes a single returned task id to a one-element list of
kept-active task ids. -/
def branchNames : BranchValue → List String
  | BranchValue.taskList l => l
  | BranchValue.taskId s => [s]

/-! ### Task bodies

Each task body is embedded as a function of the run parameters, its data
inputs, and its opaque external operations.  Every fallible external
operation is an `Except PyErr`-valued parameter, so an instantiation chooses
both the returned values and the raised exceptions.  For each task,
`<task>_chain` is the sequence of external operations the body performs, and
the task definition itself wraps the chain (plus the pure construction of
the returned value) in `tryRethrow`, mirroring the uniform
catch-log-rethrow wrapper of the source. -/

/-- External-operation sequence of `data_collect` (lines 49-58): a single
call `_GET_MOTION_AND_QA(date, lot_id)`. -/
def data_collect_chain {R : Type} (p : Params)
    (getMotionAndQa : String → String → Except PyErr R) : Except PyErr R :=
  getMotionAndQa p.date p.lot_id

/-- Body of the `data_collect` task (lines 42-62). -/
def data_collect {R : Type} (p : Params)
    (getMotionAndQa : String → String → Except PyErr R) : Except PyErr R :=
  tryRethrow (data_collect_chain p getMotionAndQa)

/-- The external operations invoked by `data_preprocess`: the pandas column
selection `raw_data[features_name + targets_name]`, the imported `_DC`,
`_FE`, `_EXTRACT_DATETIME` and `_ONEHOT_ENCODING`, and sklearn's
`train_test_split`. -/
structure PreprocessOps (V : Type) where
  raw_select : List String → Except PyErr V
  dc : V → Except PyErr V
  fe : V → List String → List String → Except PyErr (V × V)
  extract_datetime : V → Except PyErr V
  onehot_encoding : V → Except PyErr V
  split : V → V → ℚ → ℕ → Except PyErr (V × V × V × V)

/-- External-operation sequence of `data_preprocess` (lines 74-91): column
selection, `_DC`, `_FE`, `_EXTRACT_DATETIME`, `_ONEHOT_ENCODING`, then
`train_test_split(feature, target, test_size=0.2, random_state=42)`. -/
def data_preprocess_chain {V : Type} (p : Params) (o : PreprocessOps V) :
    Except PyErr (V × V × V × V) := do
  let data ← o.raw_select (p.features_name ++ p.targets_name)
  let data ← o.dc data
  let ft ← o.fe data p.features_name p.targets_name
  let feature ← o.extract_datetime ft.1
  let feature ← o.onehot_encoding feature
  o.split feature ft.2 (0.2 : ℚ) 42

/-- Body of the `data_preprocess` task (lines 64-102), returning the
four-key dictionary of line 93-98. -/
def data_preprocess {V : Type} (p : Params) (o : PreprocessOps V) :
    Except PyErr (List (String × V)) :=
  tryRethrow (do
    let r ← data_preprocess_chain p o
    pure [("train_feature", r.1), ("test_feature", r.2.1),
          ("train_target", r.2.2.1), ("test_target", r.2.2.2)])

/-- The external operations invoked by `train`: the `.values` attribute
reads, `_GET_MODEL`, `model.fit`, the multioutput `isinstance` dispatch to
the base estimator, and `get_param`. -/
structure TrainOps (V M : Type) where
  values : V → V
  get_model : V → Except PyErr M
  fit : M → V → V → Except PyErr M
  base_of : M → M
  get_param : M → String → Except PyErr V

/-- External-operation sequence of `train` (lines 115-132): tensor
extraction, `_GET_MODEL`, `fit`, then the two `get_param` reads on the base
model. -/
def train_chain {V M : Type} (o : TrainOps V M) (train_feature train_target : V) :
    Except PyErr (M × V × V) := do
  let feature_tensor := o.values train_feature
  let target_tensor := o.values train_target
  let model ← o.get_model target_tensor
  let model ← o.fit model feature_tensor target_tensor
  let base_model := o.base_of model
  let iterations ← o.get_param base_model "iterations"
  let learning_rate ← o.get_param base_model "learning_rate"
  pure (model, iterations, learning_rate)

/-- The dictionary returned by `train` (lines 134-137), with its `model` and
`model_parameter` keys. -/
structure TrainOut (V M : Type) where
  model : M
  model_parameter : List (String × V)

/-- Body of the `train` task (lines 104-141). -/
def train {V M : Type} (o : TrainOps V M) (train_feature train_target : V) :
    Except PyErr (TrainOut V M) :=
  tryRethrow (do
    let r ← train_chain o train_feature train_target
    pure { model := r.1,
           model_parameter := [("iterations", r.2.1), ("learning_rate", r.2.2)] })

/-- External-operation sequence of `save` (lines 153-161): a single call
`_LOG_MODEL(model_id, model)`. -/
def save_chain {M R : Type} (p : Params)
    (logModel : String → M → Except PyErr R) (model : M) : Except PyErr R :=
  logModel p.model_id model

/-- Body of the `save` task (lines 143-165). -/
def save {M R : Type} (p : Params)
    (logModel : String → M → Except PyErr R) (model : M) : Except PyErr R :=
  tryRethrow (save_chain p logModel model)

/-- The external operations invoked by `predict`: the `.values` read,
`model.predict`, and the `pd.DataFrame(tensor, columns=targets_name)`
construction. -/
structure PredictOps (V M : Type) where
  values : V → V
  predictModel : M → V → Except PyErr V
  mk_frame : V → List String → Except PyErr V

/-- External-operation sequence of `predict` (lines 178-186). -/
def predict_chain {V M : Type} (p : Params) (o : PredictOps V M)
    (model : M) (test_feature : V) : Except PyErr V := do
  let feature_tensor := o.values test_feature
  let prediction_tensor ← o.predictModel model feature_tensor
  o.mk_frame prediction_tensor p.targets_name

/-- Body of the `predict` task (lines 167-192). -/
def predict {V M : Type} (p : Params) (o : PredictOps V M)
    (model : M) (test_feature : V) : Except PyErr V :=
  tryRethrow (predict_chain p o model test_feature)

/-- The external operations invoked by `evaluate`: sklearn's `r2_score` and
`mean_squared_error`, the numpy subtraction `prediction.values -
target.values`, and the `max`/`min` reductions on the error array. -/
structure EvaluateOps (V : Type) where
  r2 : V → V → Except PyErr ℚ
  mse : V → V → Except PyErr ℚ
  sub : V → V → Except PyErr V
  maxv : V → Except PyErr ℚ
  minv : V → Except PyErr ℚ

/-- External-operation sequence of `evaluate` (lines 205-211), in source
order: `r2_score(target, prediction)`, `mean_squared_error(target,
prediction)`, `prediction.values - target.values`, `errors.max()`,
`errors.min()`. -/
def evaluate_chain {V : Type} (o : EvaluateOps V) (target prediction : V) :
    Except PyErr (ℚ × ℚ × ℚ × ℚ) := do
  let r2v ← o.r2 target prediction
  let msev ← o.mse target prediction
  let errors ← o.sub prediction target
  let pos_max_err ← o.maxv errors
  let neg_max_err ← o.minv errors
  pure (r2v, msev, pos_max_err, neg_max_err)

/-- Body of the `evaluate` task (lines 194-222), returning the four-key
metrics dictionary of lines 213-218. -/
def evaluate {V : Type} (o : EvaluateOps V) (target prediction : V) :
    Except PyErr (List (String × ℚ)) :=
  tryRethrow (do
    let r ← evaluate_chain o target prediction
    pure [("r2_score", r.1), ("mse_score", r.2.1),
          ("pos_max_err", r.2.2.1), ("neg_max_err", r.2.2.2)])

/-- External-operation sequence of `collect_metric` (lines 235-244):
`_LOG_METRIC(model_id, metrics)` then `_LOG_PARAMETER(model_id,
parameters)`, in Python evaluation order of the dict literal. -/
def collect_metric_chain {A B R : Type} (p : Params)
    (logMetric : String → A → Except PyErr R)
    (logParameter : String → B → Except PyErr R)
    (metrics : A) (parameters : B) : Except PyErr (R × R) := do
  let metricResp ← logMetric p.model_id metrics
  let parameterResp ← logParameter p.model_id parameters
  pure (metricResp, parameterResp)

/-- Body of the `collect_metric` task (lines 224-250), returning the
responses dictionary of lines 241-244. -/
def collect_metric {A B R : Type} (p : Params)
    (logMetric : String → A → Except PyErr R)
    (logParameter : String → B → Except PyErr R)
    (metrics : A) (parameters : B) : Except PyErr (List (String × R)) :=
  tryRethrow (do
    let r ← collect_metric_chain p logMetric logParameter metrics parameters
    pure [("metric", r.1), ("parameter", r.2)])

/-- External-operation sequence of `send_result` (lines 262-269): a single
call `_SEND_RESULT(model_id, dag_run, metrics)`. -/
def send_result_chain {A D R : Type} (p : Params) (dag_run : D)
    (sendResultOp : String → D → A → Except PyErr R) (metrics : A) :
    Except PyErr R :=
  sendResultOp p.model_id dag_run metrics

/-- Body of the `send_result` task (lines 252-275). -/
def send_result {A D R : Type} (p : Params) (dag_run : D)
    (sendResultOp : String → D → A → Except PyErr R) (metrics : A) :
    Except PyErr R :=
  tryRethrow (send_result_chain p dag_run sendResultOp metrics)

/-- The fallible operations of `check_metric` (lines 289-292): the four
dictionary reads on its metrics input. -/
def check_metric_chain (metrics : List (String × ℚ)) :
    Except PyErr (ℚ × ℚ × ℚ × ℚ) := do
  let r2v ← pyGet metrics "r2_score"
  let msev ← pyGet metrics "mse_score"
  let pos_max_err ← pyGet metrics "pos_max_err"
  let neg_max_err ← pyGet metrics "neg_max_err"
  pure (r2v, msev, pos_max_err, neg_max_err)

/-- Body of the branch task `check_metric` (lines 277-301): reads the four
metric fields, then returns the success-branch task ids when
`mse_score > 50` and the string `"failure"` otherwise. -/
def check_metric (p : Params) (metrics : List (String × ℚ)) :
    Except PyErr BranchValue :=
  tryRethrow (do
    let _model_id := p.model_id
    let r ← check_metric_chain metrics
    pure (if r.2.1 > 50 then
            BranchValue.taskList ["save", "send_result", "collect_metric"]
          else BranchValue.taskId "failure"))

/-- Body of the `failure` task (lines 303-307): prints a message and returns
`None`; it has no inputs, no external operations, and no try/except
wrapper. -/
def failure : Except PyErr Unit :=
  Except.ok Unit.unit

/-! ### Model of the external sklearn metrics and numpy reductions

The `evaluate` task calls sklearn's `r2_score` and `mean_squared_error` and
numpy's elementwise subtraction and `max`/`min` reductions.  These live in
external libraries, not in the repository; they are modelled here over exact
rational arithmetic, a DataFrame being a column-major list of equal-length
rational columns. -/

/-- A pandas DataFrame of rationals, as the list of its columns. -/
abbrev Frame := List (List ℚ)

/-- Arithmetic mean of a list of rationals (0 on the empty list, matching
rational division by zero). -/
def colMean (c : List ℚ) : ℚ := c.sum / c.length

/-- Residual sum of squares of one output column. -/
def ssRes (t p : List ℚ) : ℚ :=
  (List.zipWith (fun a b => (a - b) ^ 2) t p).sum

/-- Total sum of squares of one output column. -/
def ssTot (t : List ℚ) : ℚ :=
  (t.map (fun a => (a - colMean t) ^ 2)).sum

/-- Per-output coefficient of determination, with sklearn's conventions for
a constant target column: 1 when the residuals are also zero, 0 otherwise. -/
def r2Col (t p : List ℚ) : ℚ :=
  if ssTot t = 0 then (if ssRes t p = 0 then 1 else 0)
  else 1 - ssRes t p / ssTot t

/-- Per-output mean squared error. -/
def colMSE (t p : List ℚ) : ℚ := ssRes t p / t.length

/-- Model of sklearn `r2_score` with the default uniform average over
outputs: raises on shape mismatch, on an empty frame, or on fewer than two
samples. -/
def sk_r2_score (y_true y_pred : Frame) : Except PyErr ℚ :=
  if y_true.map List.length ≠ y_pred.map List.length then
    Except.error (PyErr.extFailure "inconsistent input shapes")
  else if y_true.isEmpty || y_true.any (fun c => decide (c.length < 2)) then
    Except.error (PyErr.extFailure "r2 score needs at least two samples")
  else Except.ok (colMean (List.zipWith r2Col y_true y_pred))

/-- Model of sklearn `mean_squared_error` with the default uniform average
over outputs: raises on shape mismatch or empty input. -/
def sk_mean_squared_error (y_true y_pred : Frame) : Except PyErr ℚ :=
  if y_true.map List.length ≠ y_pred.map List.length then
    Except.error (PyErr.extFailure "inconsistent input shapes")
  else if y_true.isEmpty || y_true.any List.isEmpty then
    Except.error (PyErr.extFailure "empty input")
  else Except.ok (colMean (List.zipWith colMSE y_true y_pred))

/-- Model of the numpy elementwise subtraction of two arrays: raises on
shape mismatch. -/
def frameSub (a b : Frame) : Except PyErr Frame :=
  if a.map List.length ≠ b.map List.length then
    Except.error (PyErr.extFailure "operands could not be broadcast")
  else Except.ok (List.zipWith (List.zipWith (fun x y => x - y)) a b)

/-- Model of a numpy reduction over all entries: raises on an empty array. -/
def npMaxList (l : List ℚ) : Except PyErr ℚ :=
  match l with
  | [] => Except.error (PyErr.extFailure "zero-size array reduction")
  | x :: xs => Except.ok (xs.foldl max x)

/-- Model of a numpy `min` reduction over all entries. -/
def npMinList (l : List ℚ) : Except PyErr ℚ :=
  match l with
  | [] => Except.error (PyErr.extFailure "zero-size array reduction")
  | x :: xs => Except.ok (xs.foldl min x)

/-- Maximum entry of a frame, `errors.max()`. -/
def frameMax (f : Frame) : Except PyErr ℚ := npMaxList f.flatten

/-- Minimum entry of a frame, `errors.min()`. -/
def frameMin (f : Frame) : Except PyErr ℚ := npMinList f.flatten

/-- The `evaluate` task's external operations instantiated with the sklearn
and numpy models. -/
def sklearnEvalOps : EvaluateOps Frame :=
  { r2 := sk_r2_score
    mse := sk_mean_squared_error
    sub := frameSub
    maxv := frameMax
    minv := frameMin }

/-- A trivial instantiation of the `data_preprocess` external operations in
which every operation succeeds on the unit value; used to evaluate the body
at a concrete input. -/
def unitPreprocessOps : PreprocessOps Unit :=
  { raw_select := fun _ => Except.ok Unit.unit
    dc := fun _ => Except.ok Unit.unit
    fe := fun _ _ _ => Except.ok (Unit.unit, Unit.unit)
    extract_datetime := fun _ => Except.ok Unit.unit
    onehot_encoding := fun _ => Except.ok Unit.unit
    split := fun _ _ _ _ => Except.ok (Unit.unit, Unit.unit, Unit.unit, Unit.unit) }

/-- A metrics dictionary whose error metric `mse_score` is 60. -/
def metrics60 : List (String × ℚ) :=
  [("r2_score", 0), ("mse_score", 60), ("pos_max_err", 0), ("neg_max_err", 0)]

/-- A metrics dictionary whose error metric `mse_score` is 10. -/
def metrics10 : List (String × ℚ) :=
  [("r2_score", 0), ("mse_score", 10), ("pos_max_err", 0), ("neg_max_err", 0)]

/-- The run behaviour in which no task body raises and the branch task
returned the value `bv`. -/
def envOfBranch (bv : BranchValue) : RunEnv :=
  { fails := fun _ => false, choice := branchNames bv }

/-! ### Helper lemmas -/

@[simp] theorem except_bind_ok {α β : Type} (a : α) (f : α → Except PyErr β) :
    (Except.ok a >>= f) = f a := rfl

@[simp] theorem except_bind_error {α β : Type} (e : PyErr) (f : α → Except PyErr β) :
    ((Except.error e : Except PyErr α) >>= f) = Except.error e := rfl

@[simp] theorem except_pure_eq {α : Type} (a : α) :
    (pure a : Except PyErr α) = Except.ok a := rfl

@[simp] theorem tryRethrow_ok {α : Type} (a : α) :
    tryRethrow (Except.ok a) = Except.ok a := rfl

@[simp] theorem tryRethrow_err {α : Type} (e : PyErr) :
    tryRethrow (Except.error e : Except PyErr α) = Except.error e := rfl

theorem tryRethrow_error_iff {α : Type} (x : Except PyErr α) (e : PyErr) :
    tryRethrow x = Except.error e ↔ x = Except.error e := by
  cases x <;> simp [tryRethrow]

theorem tryRethrow_post_error_iff {α β : Type} (x : Except PyErr α)
    (f : α → β) (e : PyErr) :
    tryRethrow (x >>= fun a => pure (f a)) = Except.error e ↔
      x = Except.error e := by
  cases x <;> simp [tryRethrow]

/-- The run record reached by the fold agrees, at each task, with one
Executor step taken over the final record; this holds because every upstream
reference points at a task processed earlier in the topological order. -/
theorem runDag_step (env : RunEnv) (t : TName) :
    runDag env t = statusOf env (fun u => some (runDag env u)) t := by
  cases t <;> rfl

theorem runDag_upstream_skip (env : RunEnv) (t u : TName) (hu : u ∈ upstream t)
    (h : runDag env u ≠ TStatus.completed) : runDag env t = TStatus.skipped := by
  have hany : ((upstream t).any
      fun v => decide (some (runDag env v) ≠ some TStatus.completed)) = true := by
    refine List.any_eq_true.mpr ⟨u, hu, ?_⟩
    simpa using h
  rw [runDag_step]
  unfold statusOf
  rw [if_pos hany]

theorem zipWith_self_map {α β : Type} (f : α → α → β) (l : List α) :
    List.zipWith f l l = l.map fun a => f a a := by
  induction l with
  | nil => rfl
  | cons a t ih => simp [ih]

theorem ssRes_self (c : List ℚ) : ssRes c c = 0 := by
  unfold ssRes
  induction c with
  | nil => rfl
  | cons a t ih => simp [ih]

theorem r2Col_self (c : List ℚ) : r2Col c c = 1 := by
  unfold r2Col
  rw [ssRes_self]
  split <;> simp

theorem colMSE_self (c : List ℚ) : colMSE c c = 0 := by
  unfold colMSE
  rw [ssRes_self]
  simp

theorem colMean_all_zero (l : List ℚ) (h : ∀ y ∈ l, y = 0) : colMean l = 0 := by
  unfold colMean
  rw [List.sum_eq_zero h]
  simp

theorem sum_all_one (l : List ℚ) (h : ∀ y ∈ l, y = 1) : l.sum = l.length := by
  induction l with
  | nil => simp
  | cons a t ih =>
    simp only [List.sum_cons, List.length_cons]
    rw [h a (List.mem_cons_self a t), ih fun y hy => h y (List.mem_cons_of_mem a hy)]
    push_cast
    ring

theorem colMean_all_one (l : List ℚ) (hne : l ≠ []) (h : ∀ y ∈ l, y = 1) :
    colMean l = 1 := by
  unfold colMean
  rw [sum_all_one l h]
  have hlen : l.length ≠ 0 := fun h0 => hne (List.length_eq_zero.mp h0)
  exact div_self (Nat.cast_ne_zero.mpr hlen)

theorem sk_r2_self (t : Frame) (hne : t ≠ []) (h2 : ∀ c ∈ t, 2 ≤ c.length) :
    sk_r2_score t t = Except.ok 1 := by
  unfold sk_r2_score
  rw [if_neg (by simp), if_neg]
  · rw [zipWith_self_map]
    congr 1
    refine colMean_all_one _ (by simpa using hne) ?_
    intro y hy
    obtain ⟨c, _, rfl⟩ := List.mem_map.mp hy
    exact r2Col_self c
  · simp only [Bool.or_eq_true, List.isEmpty_iff, List.any_eq_true,
      decide_eq_true_eq, not_or, not_exists]
    refine ⟨hne, ?_⟩
    intro c
    rintro ⟨hc, hlt⟩
    have := h2 c hc
    omega

theorem sk_mse_self (t : Frame) (hne : t ≠ []) (h1 : ∀ c ∈ t, c ≠ []) :
    sk_mean_squared_error t t = Except.ok 0 := by
  unfold sk_mean_squared_error
  rw [if_neg (by simp), if_neg]
  · rw [zipWith_self_map]
    congr 1
    refine colMean_all_zero _ ?_
    intro y hy
    obtain ⟨c, _, rfl⟩ := List.mem_map.mp hy
    exact colMSE_self c
  · simp only [Bool.or_eq_true, List.isEmpty_iff, List.any_eq_true, not_or,
      not_exists]
    refine ⟨hne, ?_⟩
    intro c
    rintro ⟨hc, hemp⟩
    exact h1 c hc hemp

theorem zipWith_sub_self (c : List ℚ) :
    List.zipWith (fun x y => x - y) c c = List.replicate c.length 0 := by
  induction c with
  | nil => rfl
  | cons a t ih => simp [List.replicate, ih]

theorem frameSub_self (t : Frame) :
    frameSub t t = Except.ok (t.map fun c => List.replicate c.length (0 : ℚ)) := by
  unfold frameSub
  rw [if_neg (by simp), zipWith_self_map]
  congr 1
  refine List.map_congr_left ?_
  intro c _
  exact zipWith_sub_self c

theorem foldl_max_zero (ys : List ℚ) (h : ∀ y ∈ ys, y = 0) :
    List.foldl max 0 ys = 0 := by
  induction ys with
  | nil => rfl
  | cons y t ih =>
    rw [List.foldl_cons, h y (List.mem_cons_self y t)]
    simpa using ih fun z hz => h z (List.mem_cons_of_mem y hz)

theorem foldl_min_zero (ys : List ℚ) (h : ∀ y ∈ ys, y = 0) :
    List.foldl min 0 ys = 0 := by
  induction ys with
  | nil => rfl
  | cons y t ih =>
    rw [List.foldl_cons, h y (List.mem_cons_self y t)]
    simpa using ih fun z hz => h z (List.mem_cons_of_mem y hz)

theorem npMax_zeros (l : List ℚ) (hne : l ≠ []) (h : ∀ y ∈ l, y = 0) :
    npMaxList l = Except.ok 0 := by
  cases l with
  | nil => exact absurd rfl hne
  | cons x xs =>
    show Except.ok (List.foldl max x xs) = Except.ok 0
    rw [h x (List.mem_cons_self x xs),
      foldl_max_zero xs fun z hz => h z (List.mem_cons_of_mem x hz)]

theorem npMin_zeros (l : List ℚ) (hne : l ≠ []) (h : ∀ y ∈ l, y = 0) :
    npMinList l = Except.ok 0 := by
  cases l with
  | nil => exact absurd rfl hne
  | cons x xs =>
    show Except.ok (List.foldl min x xs) = Except.ok 0
    rw [h x (List.mem_cons_self x xs),
      foldl_min_zero xs fun z hz => h z (List.mem_cons_of_mem x hz)]

theorem zeroFrame_flatten_ne_nil (t : Frame) (hne : t ≠ [])
    (h2 : ∀ c ∈ t, 2 ≤ c.length) :
    (t.map fun c => List.replicate c.length (0 : ℚ)).flatten ≠ [] := by
  cases t with
  | nil => exact absurd rfl hne
  | cons c rest =>
    have hcl : 2 ≤ c.length := h2 c (List.mem_cons_self c rest)
    simp only [List.map_cons, List.flatten_cons, ne_eq, List.append_eq_nil]
    rintro ⟨hrep, -⟩
    have := congrArg List.length hrep
    rw [List.length_replicate, List.length_nil] at this
    omega

theorem zeroFrame_flatten_all_zero (t : Frame) (y : ℚ)
    (hy : y ∈ (t.map fun c => List.replicate c.length (0 : ℚ)).flatten) :
    y = 0 := by
  obtain ⟨l, hl, hyl⟩ := List.mem_flatten.mp hy
  obtain ⟨c, _, rfl⟩ := List.mem_map.mp hl
  exact List.eq_of_mem_replicate hyl

theorem evaluate_self (t : Frame) (hne : t ≠ []) (h2 : ∀ c ∈ t, 2 ≤ c.length) :
    evaluate sklearnEvalOps t t =
      Except.ok [("r2_score", 1), ("mse_score", 0),
                 ("pos_max_err", 0), ("neg_max_err", 0)] := by
  have h1 : ∀ c ∈ t, c ≠ [] := by
    intro c hc hnil
    have := h2 c hc
    rw [hnil] at this
    simp at this
  have hmax : frameMax (t.map fun c => List.replicate c.length (0 : ℚ)) =
      Except.ok 0 :=
    npMax_zeros _ (zeroFrame_flatten_ne_nil t hne h2)
      (zeroFrame_flatten_all_zero t)
  have hmin : frameMin (t.map fun c => List.replicate c.length (0 : ℚ)) =
      Except.ok 0 :=
    npMin_zeros _ (zeroFrame_flatten_ne_nil t hne h2)
      (zeroFrame_flatten_all_zero t)
  simp [evaluate, evaluate_chain, sklearnEvalOps, sk_r2_self t hne h2,
    sk_mse_self t hne h1, frameSub_self t, hmax, hmin]

/-! ### Claims -/

/-- C6: among the ten distinct tasks declared in the DAG, `check_metric` is
the only task of branch kind. -/
theorem single_branch_task :
    declaredTasks.length = 10 ∧ declaredTasks.Nodup ∧
    declaredTasks.filter (fun t => decide (kindOf t = TKind.branch)) =
      [TName.check_metric] := by
  decide

/-- C7: the parameter set declared on the DAG consists of exactly the five
keys `model_id`, `date`, `lot_id`, `features_name`, `targets_name`, the
first three bound to strings and the last two to ordered lists of column
names. -/
theorem dag_params_declaration :
    dagParams.map Prod.fst =
      ["model_id", "date", "lot_id", "features_name", "targets_name"] ∧
    (dagParams.lookup "model_id").map ParamVal.isStr = some true ∧
    (dagParams.lookup "date").map ParamVal.isStr = some true ∧
    (dagParams.lookup "lot_id").map ParamVal.isStr = some true ∧
    (dagParams.lookup "features_name").map ParamVal.isStrList = some true ∧
    (dagParams.lookup "targets_name").map ParamVal.isStrList = some true := by
  decide

/-- C2: in any run in which `predict` ends `Failed`, the tasks `evaluate`,
`check_metric`, and all four tasks downstream of the branch end `Skipped`
(in particular never `Completed`): skips propagate transitively along the
wired dependency edges. -/
theorem predict_failure_skips_downstream (env : RunEnv)
    (h : runDag env TName.predict = TStatus.failed) :
    runDag env TName.evaluate = TStatus.skipped ∧
    runDag env TName.check_metric = TStatus.skipped ∧
    runDag env TName.save = TStatus.skipped ∧
    runDag env TName.collect_metric = TStatus.skipped ∧
    runDag env TName.send_result = TStatus.skipped ∧
    runDag env TName.failure = TStatus.skipped := by
  have he : runDag env TName.evaluate = TStatus.skipped :=
    runDag_upstream_skip env TName.evaluate TName.predict (by simp [upstream])
      (by rw [h]; simp)
  have hck : runDag env TName.check_metric = TStatus.skipped :=
    runDag_upstream_skip env TName.check_metric TName.evaluate (by simp [upstream])
      (by rw [he]; simp)
  have hsv : runDag env TName.save = TStatus.skipped :=
    runDag_upstream_skip env TName.save TName.check_metric (by simp [upstream])
      (by rw [hck]; simp)
  have hcm : runDag env TName.collect_metric = TStatus.skipped :=
    runDag_upstream_skip env TName.collect_metric TName.check_metric
      (by simp [upstream]) (by rw [hck]; simp)
  have hsr : runDag env TName.send_result = TStatus.skipped :=
    runDag_upstream_skip env TName.send_result TName.check_metric
      (by simp [upstream]) (by rw [hck]; simp)
  have hfl : runDag env TName.failure = TStatus.skipped :=
    runDag_upstream_skip env TName.failure TName.check_metric (by simp [upstream])
      (by rw [hck]; simp)
  exact ⟨he, hck, hsv, hcm, hsr, hfl⟩

theorem predict_failure_skips_downstream_witness :
    runDag (RunEnv.mk (fun t => decide (t = TName.predict)) [])
      TName.predict = TStatus.failed ∧
    (runDag (RunEnv.mk (fun t => decide (t = TName.predict)) [])
        TName.evaluate = TStatus.skipped ∧
     runDag (RunEnv.mk (fun t => decide (t = TName.predict)) [])
        TName.check_metric = TStatus.skipped ∧
     runDag (RunEnv.mk (fun t => decide (t = TName.predict)) [])
        TName.save = TStatus.skipped ∧
     runDag (RunEnv.mk (fun t => decide (t = TName.predict)) [])
        TName.collect_metric = TStatus.skipped ∧
     runDag (RunEnv.mk (fun t => decide (t = TName.predict)) [])
        TName.send_result = TStatus.skipped ∧
     runDag (RunEnv.mk (fun t => decide (t = TName.predict)) [])
        TName.failure = TStatus.skipped) :=
  ⟨by decide,
   predict_failure_skips_downstream
     (RunEnv.mk (fun t => decide (t = TName.predict)) []) (by decide)⟩

/-- C10: the `failure` task declares no inputs, its body never raises, and
in any run whose branch task completed with `failure` among the selected
task ids, the `failure` task (whose body cannot fail) ends `Completed`. -/
theorem failure_task_safety :
    inputRefs TName.failure = [] ∧
    (∀ e : PyErr, failure ≠ Except.error e) ∧
    (∀ env : RunEnv, env.fails TName.failure = false →
      runDag env TName.check_metric = TStatus.completed →
      "failure" ∈ env.choice →
      runDag env TName.failure = TStatus.completed) := by
  refine ⟨rfl, ?_, ?_⟩
  · intro e h
    exact Except.noConfusion h
  · intro env hf hcm hmem
    rw [runDag_step]
    unfold statusOf
    have hdec : decide ("failure" ∈ env.choice) = true := decide_eq_true hmem
    simp [upstream, hcm, taskName, branchDownstream, hdec, hf]

theorem failure_task_safety_witness :
    ((RunEnv.mk (fun _ => false) ["failure"]).fails TName.failure = false ∧
     runDag (RunEnv.mk (fun _ => false) ["failure"]) TName.check_metric =
       TStatus.completed ∧
     "failure" ∈ (RunEnv.mk (fun _ => false) ["failure"]).choice) ∧
    runDag (RunEnv.mk (fun _ => false) ["failure"]) TName.failure =
      TStatus.completed :=
  ⟨⟨rfl, by decide, by decide⟩,
   failure_task_safety.2.2 (RunEnv.mk (fun _ => false) ["failure"]) rfl
     (by decide) (by decide)⟩

/-- C1: `check_metric` returns the success set exactly when the `mse_score`
field of its metrics input is strictly greater than 50, and otherwise
(including at exactly 50) returns the single id `"failure"`; consequently,
with error metric 60 and no failing body the run marks `failure` `Skipped`
and the three success-branch tasks `Completed`, and with error metric 10 the
three success-branch tasks are `Skipped` and `failure` `Completed`. -/
theorem check_metric_threshold (p : Params) (m : List (String × ℚ)) (v : ℚ)
    (hr2 : m.lookup "r2_score" ≠ none)
    (hpos : m.lookup "pos_max_err" ≠ none)
    (hneg : m.lookup "neg_max_err" ≠ none)
    (hmse : m.lookup "mse_score" = some v) :
    ((check_metric p m =
        Except.ok (BranchValue.taskList ["save", "send_result", "collect_metric"]))
      ↔ 50 < v) ∧
    (v ≤ 50 → check_metric p m = Except.ok (BranchValue.taskId "failure")) ∧
    (∀ bv, check_metric p metrics60 = Except.ok bv →
      branchNames bv = ["save", "send_result", "collect_metric"] ∧
      runDag (envOfBranch bv) TName.failure = TStatus.skipped ∧
      runDag (envOfBranch bv) TName.save = TStatus.completed ∧
      runDag (envOfBranch bv) TName.collect_metric = TStatus.completed ∧
      runDag (envOfBranch bv) TName.send_result = TStatus.completed) ∧
    (∀ bv, check_metric p metrics10 = Except.ok bv →
      branchNames bv = ["failure"] ∧
      runDag (envOfBranch bv) TName.failure = TStatus.completed ∧
      runDag (envOfBranch bv) TName.save = TStatus.skipped ∧
      runDag (envOfBranch bv) TName.collect_metric = TStatus.skipped ∧
      runDag (envOfBranch bv) TName.send_result = TStatus.skipped) := by
  obtain ⟨r2v, hr2v⟩ := Option.ne_none_iff_exists'.mp hr2
  obtain ⟨posv, hposv⟩ := Option.ne_none_iff_exists'.mp hpos
  obtain ⟨negv, hnegv⟩ := Option.ne_none_iff_exists'.mp hneg
  have hbody : check_metric p m =
      Except.ok (if 50 < v then
          BranchValue.taskList ["save", "send_result", "collect_metric"]
        else BranchValue.taskId "failure") := by
    simp [check_metric, check_metric_chain, pyGet, hr2v, hposv, hnegv, hmse,
      tryRethrow]
  have h60 : check_metric p metrics60 =
      Except.ok (BranchValue.taskList ["save", "send_result", "collect_metric"]) := by
    rw [show check_metric p metrics60 = check_metric defaultParams metrics60 from rfl]
    decide
  have h10 : check_metric p metrics10 =
      Except.ok (BranchValue.taskId "failure") := by
    rw [show check_metric p metrics10 = check_metric defaultParams metrics10 from rfl]
    decide
  refine ⟨?_, ?_, ?_, ?_⟩
  · by_cases hv : 50 < v
    · simp [hbody, hv]
    · simp [hbody, hv]
  · intro hle
    rw [hbody, if_neg (not_lt.mpr hle)]
  · intro bv hbv
    rw [h60] at hbv
    cases Except.ok.inj hbv
    exact ⟨rfl, by decide, by decide, by decide, by decide⟩
  · intro bv hbv
    rw [h10] at hbv
    cases Except.ok.inj hbv
    exact ⟨rfl, by decide, by decide, by decide, by decide⟩

theorem check_metric_threshold_witness :
    (metrics60.lookup "r2_score" ≠ none ∧
     metrics60.lookup "pos_max_err" ≠ none ∧
     metrics60.lookup "neg_max_err" ≠ none ∧
     metrics60.lookup "mse_score" = some 60) ∧
    ((check_metric defaultParams metrics60 =
        Except.ok (BranchValue.taskList ["save", "send_result", "collect_metric"]))
      ↔ (50 : ℚ) < 60) :=
  ⟨⟨by decide, by decide, by decide, by decide⟩,
   (check_metric_threshold defaultParams metrics60 60 (by decide) (by decide)
     (by decide) (by decide)).1⟩

/-- C8: the branch decision depends only on the `mse_score` field: on any
two metrics dictionaries that both contain the four expected keys and agree
on `mse_score`, `check_metric` returns the same value, whatever the other
three fields (and the run parameters) hold. -/
theorem check_metric_depends_only_on_mse (p : Params)
    (m₁ m₂ : List (String × ℚ))
    (h₁ : ∀ k ∈ ["r2_score", "mse_score", "pos_max_err", "neg_max_err"],
      (m₁.lookup k).isSome)
    (h₂ : ∀ k ∈ ["r2_score", "mse_score", "pos_max_err", "neg_max_err"],
      (m₂.lookup k).isSome)
    (hmse : m₁.lookup "mse_score" = m₂.lookup "mse_score") :
    check_metric p m₁ = check_metric p m₂ := by
  obtain ⟨a₁, ha₁⟩ := Option.isSome_iff_exists.mp (h₁ "r2_score" (by simp))
  obtain ⟨b₁, hb₁⟩ := Option.isSome_iff_exists.mp (h₁ "mse_score" (by simp))
  obtain ⟨c₁, hc₁⟩ := Option.isSome_iff_exists.mp (h₁ "pos_max_err" (by simp))
  obtain ⟨d₁, hd₁⟩ := Option.isSome_iff_exists.mp (h₁ "neg_max_err" (by simp))
  obtain ⟨a₂, ha₂⟩ := Option.isSome_iff_exists.mp (h₂ "r2_score" (by simp))
  obtain ⟨b₂, hb₂⟩ := Option.isSome_iff_exists.mp (h₂ "mse_score" (by simp))
  obtain ⟨c₂, hc₂⟩ := Option.isSome_iff_exists.mp (h₂ "pos_max_err" (by simp))
  obtain ⟨d₂, hd₂⟩ := Option.isSome_iff_exists.mp (h₂ "neg_max_err" (by simp))
  have hb : b₁ = b₂ := by
    rw [hb₁, hb₂] at hmse
    exact Option.some.inj hmse
  subst hb
  simp [check_metric, check_metric_chain, pyGet, ha₁, hb₁, hc₁, hd₁, ha₂, hb₂,
    hc₂, hd₂, tryRethrow]

theorem check_metric_depends_only_on_mse_witness :
    ((∀ k ∈ ["r2_score", "mse_score", "pos_max_err", "neg_max_err"],
        (([("r2_score", (1 : ℚ)), ("mse_score", 60), ("pos_max_err", 2),
           ("neg_max_err", -2)]).lookup k).isSome) ∧
     (∀ k ∈ ["r2_score", "mse_score", "pos_max_err", "neg_max_err"],
        (([("mse_score", (60 : ℚ)), ("r2_score", -5), ("pos_max_err", 99),
           ("neg_max_err", 0)]).lookup k).isSome) ∧
     ([("r2_score", (1 : ℚ)), ("mse_score", 60), ("pos_max_err", 2),
       ("neg_max_err", -2)]).lookup "mse_score" =
       ([("mse_score", (60 : ℚ)), ("r2_score", -5), ("pos_max_err", 99),
         ("neg_max_err", 0)]).lookup "mse_score") ∧
    check_metric defaultParams
        [("r2_score", (1 : ℚ)), ("mse_score", 60), ("pos_max_err", 2),
         ("neg_max_err", -2)] =
      check_metric defaultParams
        [("mse_score", (60 : ℚ)), ("r2_score", -5), ("pos_max_err", 99),
         ("neg_max_err", 0)] :=
  ⟨⟨by decide, by decide, by decide⟩,
   check_metric_depends_only_on_mse defaultParams
     [("r2_score", (1 : ℚ)), ("mse_score", 60), ("pos_max_err", 2),
      ("neg_max_err", -2)]
     [("mse_score", (60 : ℚ)), ("r2_score", -5), ("pos_max_err", 99),
      ("neg_max_err", 0)]
     (by decide) (by decide) (by decide)⟩

/-- C3: when the predictions exactly equal the targets (any nonempty frame
with at least two samples per output), `evaluate` returns the metrics
dictionary with `mse_score = 0` and `r2_score = 1`, the branch evaluates
`0 > 50` as false and returns `"failure"`, and the resulting run marks
`failure` `Completed` with `save`, `collect_metric` and `send_result` all
`Skipped`. -/
theorem end_to_end_equal_predictions (p : Params) (t : Frame)
    (hne : t ≠ []) (h2 : ∀ c ∈ t, 2 ≤ c.length) :
    evaluate sklearnEvalOps t t =
      Except.ok [("r2_score", 1), ("mse_score", 0),
                 ("pos_max_err", 0), ("neg_max_err", 0)] ∧
    check_metric p [("r2_score", 1), ("mse_score", 0),
                    ("pos_max_err", 0), ("neg_max_err", 0)] =
      Except.ok (BranchValue.taskId "failure") ∧
    runDag (envOfBranch (BranchValue.taskId "failure")) TName.failure =
      TStatus.completed ∧
    runDag (envOfBranch (BranchValue.taskId "failure")) TName.save =
      TStatus.skipped ∧
    runDag (envOfBranch (BranchValue.taskId "failure")) TName.collect_metric =
      TStatus.skipped ∧
    runDag (envOfBranch (BranchValue.taskId "failure")) TName.send_result =
      TStatus.skipped := by
  refine ⟨evaluate_self t hne h2, ?_, by decide, by decide, by decide, by decide⟩
  rw [show check_metric p [("r2_score", 1), ("mse_score", 0),
        ("pos_max_err", 0), ("neg_max_err", 0)] =
      check_metric defaultParams [("r2_score", 1), ("mse_score", 0),
        ("pos_max_err", 0), ("neg_max_err", 0)] from rfl]
  decide

theorem end_to_end_equal_predictions_witness :
    (([[0, 1]] : Frame) ≠ [] ∧ ∀ c ∈ ([[0, 1]] : Frame), 2 ≤ c.length) ∧
    evaluate sklearnEvalOps [[0, 1]] [[0, 1]] =
      Except.ok [("r2_score", 1), ("mse_score", 0),
                 ("pos_max_err", 0), ("neg_max_err", 0)] ∧
    runDag (envOfBranch (BranchValue.taskId "failure")) TName.failure =
      TStatus.completed :=
  ⟨⟨by decide, by decide⟩,
   (end_to_end_equal_predictions defaultParams [[0, 1]] (by decide)
      (by decide)).1,
   (end_to_end_equal_predictions defaultParams [[0, 1]] (by decide)
      (by decide)).2.2.1⟩

/-- C4, counterexample: on a successful run `data_preprocess` returns a
dictionary whose keys include `test_target`, but `test_target` is not among
the named values consumed from `data_preprocess` by the `train` and
`predict` tasks — it is consumed by `evaluate` (line 325) — so the claim's
"precisely the named values consumed by the downstream train and predict
tasks" fails. -/
theorem preprocess_consumers_counterexample :
    data_preprocess defaultParams unitPreprocessOps =
      Except.ok [("train_feature", Unit.unit), ("test_feature", Unit.unit),
                 ("train_target", Unit.unit), ("test_target", Unit.unit)] ∧
    "test_target" ∉ consumedFields TName.train TName.data_preprocess ++
        consumedFields TName.predict TName.data_preprocess := by
  exact ⟨rfl, by decide⟩

/-- C4, amended: on success `data_preprocess` returns a mapping with exactly
the four declared keys `train_feature`, `test_feature`, `train_target`,
`test_target` — no more, no fewer — and these are precisely the named values
consumed from it by the downstream `train`, `predict` and `evaluate`
tasks. -/
theorem preprocess_output_contract (V : Type) (p : Params)
    (o : PreprocessOps V) (d : List (String × V))
    (h : data_preprocess p o = Except.ok d) :
    d.map Prod.fst =
      ["train_feature", "test_feature", "train_target", "test_target"] ∧
    (consumedFields TName.train TName.data_preprocess ++
      consumedFields TName.predict TName.data_preprocess ++
      consumedFields TName.evaluate TName.data_preprocess).Perm
      (d.map Prod.fst) := by
  unfold data_preprocess at h
  cases hch : data_preprocess_chain p o with
  | error e =>
    rw [hch] at h
    simp [tryRethrow] at h
  | ok r =>
    rw [hch] at h
    simp only [except_bind_ok, except_pure_eq, tryRethrow_ok] at h
    cases Except.ok.inj h
    refine ⟨rfl, ?_⟩
    show (consumedFields TName.train TName.data_preprocess ++
        consumedFields TName.predict TName.data_preprocess ++
        consumedFields TName.evaluate TName.data_preprocess).Perm
      ["train_feature", "test_feature", "train_target", "test_target"]
    decide

theorem preprocess_output_contract_witness :
    data_preprocess defaultParams unitPreprocessOps =
      Except.ok [("train_feature", Unit.unit), ("test_feature", Unit.unit),
                 ("train_target", Unit.unit), ("test_target", Unit.unit)] ∧
    ([("train_feature", Unit.unit), ("test_feature", Unit.unit),
      ("train_target", Unit.unit), ("test_target", Unit.unit)].map Prod.fst =
        ["train_feature", "test_feature", "train_target", "test_target"] ∧
     (consumedFields TName.train TName.data_preprocess ++
       consumedFields TName.predict TName.data_preprocess ++
       consumedFields TName.evaluate TName.data_preprocess).Perm
       ([("train_feature", Unit.unit), ("test_feature", Unit.unit),
         ("train_target", Unit.unit),
         ("test_target", Unit.unit)].map Prod.fst)) :=
  ⟨rfl,
   preprocess_output_contract Unit defaultParams unitPreprocessOps
     [("train_feature", Unit.unit), ("test_feature", Unit.unit),
      ("train_target", Unit.unit), ("test_target", Unit.unit)] rfl⟩

/-- C5: for every task whose body invokes external operations, the task
raises exactly when its sequence of external operations raises, and the
exception that escapes the task is the very exception the external
operation raised — the catch-log-rethrow wrapper and the pure
post-processing neither swallow nor transform it. -/
theorem task_error_transparency :
    (∀ (R : Type) (p : Params) (gm : String → String → Except PyErr R)
        (e : PyErr),
      data_collect p gm = Except.error e ↔
        data_collect_chain p gm = Except.error e) ∧
    (∀ (V : Type) (p : Params) (o : PreprocessOps V) (e : PyErr),
      data_preprocess p o = Except.error e ↔
        data_preprocess_chain p o = Except.error e) ∧
    (∀ (V M : Type) (o : TrainOps V M) (tf tt : V) (e : PyErr),
      train o tf tt = Except.error e ↔
        train_chain o tf tt = Except.error e) ∧
    (∀ (M R : Type) (p : Params) (lm : String → M → Except PyErr R) (mo : M)
        (e : PyErr),
      save p lm mo = Except.error e ↔ save_chain p lm mo = Except.error e) ∧
    (∀ (V M : Type) (p : Params) (o : PredictOps V M) (mo : M) (tf : V)
        (e : PyErr),
      predict p o mo tf = Except.error e ↔
        predict_chain p o mo tf = Except.error e) ∧
    (∀ (V : Type) (o : EvaluateOps V) (tg pr : V) (e : PyErr),
      evaluate o tg pr = Except.error e ↔
        evaluate_chain o tg pr = Except.error e) ∧
    (∀ (A B R : Type) (p : Params) (lm : String → A → Except PyErr R)
        (lp : String → B → Except PyErr R) (ms : A) (ps : B) (e : PyErr),
      collect_metric p lm lp ms ps = Except.error e ↔
        collect_metric_chain p lm lp ms ps = Except.error e) ∧
    (∀ (A D R : Type) (p : Params) (dr : D)
        (sr : String → D → A → Except PyErr R) (ms : A) (e : PyErr),
      send_result p dr sr ms = Except.error e ↔
        send_result_chain p dr sr ms = Except.error e) ∧
    (∀ (p : Params) (ms : List (String × ℚ)) (e : PyErr),
      check_metric p ms = Except.error e ↔
        check_metric_chain ms = Except.error e) := by
  refine ⟨?_, ?_, ?_, ?_, ?_, ?_, ?_, ?_, ?_⟩
  · intro R p gm e
    exact tryRethrow_error_iff _ _
  · intro V p o e
    exact tryRethrow_post_error_iff _ _ _
  · intro V M o tf tt e
    exact tryRethrow_post_error_iff _ _ _
  · intro M R p lm mo e
    exact tryRethrow_error_iff _ _
  · intro V M p o mo tf e
    exact tryRethrow_error_iff _ _
  · intro V o tg pr e
    exact tryRethrow_post_error_iff _ _ _
  · intro A B R p lm lp ms ps e
    exact tryRethrow_post_error_iff _ _ _
  · intro A D R p dr sr ms e
    exact tryRethrow_error_iff _ _
  · intro p ms e
    exact tryRethrow_post_error_iff _ _ _

/-- C9: `data_preprocess` calls the split operation only at the fixed test
fraction `0.2` and the fixed random seed `42`, so its output depends on the
split operation only through that slice, and two invocations on identical
raw data and identical parameters (with the same deterministic external
operations) produce identical outputs. -/
theorem preprocess_fixed_split_determinism (V : Type) (p : Params)
    (o₁ o₂ : PreprocessOps V)
    (hsel : o₁.raw_select = o₂.raw_select)
    (hdc : o₁.dc = o₂.dc)
    (hfe : o₁.fe = o₂.fe)
    (hed : o₁.extract_datetime = o₂.extract_datetime)
    (hoh : o₁.onehot_encoding = o₂.onehot_encoding)
    (hsplit : ∀ f tg, o₁.split f tg (0.2 : ℚ) 42 = o₂.split f tg (0.2 : ℚ) 42) :
    data_preprocess p o₁ = data_preprocess p o₂ := by
  have hchain : data_preprocess_chain p o₁ = data_preprocess_chain p o₂ := by
    unfold data_preprocess_chain
    rw [hsel, hdc, hfe, hed, hoh]
    cases o₂.raw_select (p.features_name ++ p.targets_name) with
    | error e => simp
    | ok data =>
      simp only [except_bind_ok]
      cases o₂.dc data with
      | error e => simp
      | ok data2 =>
        simp only [except_bind_ok]
        cases o₂.fe data2 p.features_name p.targets_name with
        | error e => simp
        | ok ft =>
          simp only [except_bind_ok]
          cases o₂.extract_datetime ft.1 with
          | error e => simp
          | ok f1 =>
            simp only [except_bind_ok]
            cases o₂.onehot_encoding f1 with
            | error e => simp
            | ok f2 =>
              simp only [except_bind_ok]
              exact hsplit f2 ft.2
  unfold data_preprocess
  rw [hchain]

theorem preprocess_fixed_split_determinism_witness :
    (unitPreprocessOps.raw_select = unitPreprocessOps.raw_select ∧
     unitPreprocessOps.dc = unitPreprocessOps.dc ∧
     unitPreprocessOps.fe = unitPreprocessOps.fe ∧
     unitPreprocessOps.extract_datetime = unitPreprocessOps.extract_datetime ∧
     unitPreprocessOps.onehot_encoding = unitPreprocessOps.onehot_encoding ∧
     (∀ f tg, unitPreprocessOps.split f tg (0.2 : ℚ) 42 =
        unitPreprocessOps.split f tg (0.2 : ℚ) 42)) ∧
    data_preprocess defaultParams unitPreprocessOps =
      data_preprocess defaultParams unitPreprocessOps :=
  ⟨⟨rfl, rfl, rfl, rfl, rfl, fun _ _ => rfl⟩,
   preprocess_fixed_split_determinism Unit defaultParams unitPreprocessOps
     unitPreprocessOps rfl rfl rfl rfl rfl (fun _ _ => rfl)⟩

end ModelTraining
